import Mathlib

/-!
Shallow embedding of `news_scraper/scraper.py` (classes `ArticleLinkScraper`
and `ArticleContentScraper`) and proofs about its link-collection and
content-extraction policies.

Modelling conventions:
* Python exceptions are `Except` values; an exception type is a `PyError`
  constructor.  Logging is not modelled (it has no effect on control flow
  or data).
* The Selenium driver is modelled as a pure environment: navigation and
  element lookup are functions supplied to the scraping functions.  DOM
  elements are opaque `Nat` identifiers.
* `time.sleep` calls are not modelled (no effect on data).
-/

/-- Exception taxonomy of the Python code: `ValueError` (bad configuration),
`xml.etree.ElementTree.ParseError` (malformed feed), `AttributeError`
(an `<item>` without a `<link>` child), the generic
`Exception('No links could be parsed. link_list is empty.')`, and any
exception raised by a `driver.get` navigation. -/
inductive PyError where
  | valueError (msg : String)
  | parseError
  | attributeError
  | noLinksFound
  | navError
deriving DecidableEq, Repr

/-- Result of `ET.fromstring` on the fetched page source: either the raw text
is not well-formed XML, or it is a document whose `.//item` nodes are listed
in document order.  An item is `some t` when it has a `<link>` child with
text `t`, and `none` when it has no `<link>` child (then `.text` on the
`find` result raises `AttributeError`).  The text of a `<link>` element is
abstracted to a `String`. -/
inductive XmlDoc where
  | malformed
  | wellFormed (items : List (Option String))
deriving DecidableEq, Repr

/-- The try-block of `scrape_links_rss` (scraper.py lines 87-94):
`ET.fromstring` fails on a malformed document with `ParseError`; otherwise
the comprehension `[x.find('link').text for x in root.findall('.//item')]`
collects the link text of every item, raising `AttributeError` at the first
item with no `<link>` child. -/
def parseRss : XmlDoc → Except PyError (List String)
  | .malformed => .error .parseError
  | .wellFormed items =>
    items.mapM (fun it =>
      match it with
      | some t => Except.ok t
      | none => Except.error PyError.attributeError)

/-- `ArticleLinkScraper.scrape_links_rss` (scraper.py lines 77-101).
`nav` is the outcome of fetching `self.urls[0]`: an exception raised by
`driver.get` / `uc_open_with_reconnect` (which happens before the
try-block), or the parse outcome of the page source.  The except-clause
logs and re-raises, so every parse failure propagates.  Note: there is no
emptiness check on the resulting list. -/
def scrape_links_rss (nav : Except Unit XmlDoc) : Except PyError (List String) :=
  match nav with
  | .error _ => .error .navError
  | .ok doc => parseRss doc

/-- One captured network exchange in `driver.requests` (selenium-wire).
`url` is the requested URL compared against the target page at line 115.
`parsed` abstracts the processing of the exchange body at lines 116-121
(`decodesw` decompression, `utf-8` decode, `json.loads`, then the
caller-supplied `article_url_selector` lambda): either the list of links it
yields, or an exception raised anywhere in that chain. -/
structure Exchange where
  url : String
  parsed : Except Unit (List String)
deriving Repr

/-- The loop `for i, v in enumerate(driver.requests)` at lines 114-121 of
`scrape_links_api`: every exchange whose `url` equals the target page is
processed in capture order, extending the link list; an exception while
processing one exchange aborts the whole target, keeping the links already
extended.  Returns the links contributed and whether the iteration finished
without an exception. -/
def processMatching (page : String) : List Exchange → List String × Bool
  | [] => ([], true)
  | e :: rest =>
    if e.url = page then
      match e.parsed with
      | .ok ls =>
        let r := processMatching page rest
        (ls ++ r.1, r.2)
      | .error _ => ([], false)
    else processMatching page rest

/-- The try-block for one target of `scrape_links_api` (lines 112-126).
`env page` is the outcome of `driver.get(page)`: an exception, or the list
of exchanges newly captured by that load (selenium-wire appends them to
`driver.requests`, modelled by the state argument `st`).  Returns the links
extended for this target and the `driver.requests` state afterwards:
`driver.requests.clear()` (line 123) runs only when the whole try-block
succeeded; on an exception the `continue` at line 126 skips it, so the
captured state is carried into the next target. -/
def apiTarget (env : String → Except Unit (List Exchange)) (p : String)
    (st : List Exchange) : List String × List Exchange :=
  match env p with
  | .error _ => ([], st)
  | .ok newReqs =>
    match processMatching p (st ++ newReqs) with
    | (ls, true) => (ls, [])
    | (ls, false) => (ls, st ++ newReqs)

/-- The `for page in self.urls` loop of `scrape_links_api` (lines 111-126),
threading the captured-requests state and the accumulated `link_list`. -/
def apiLoop (env : String → Except Unit (List Exchange)) :
    List String → List Exchange → List String → List String
  | [], _, acc => acc
  | p :: rest, st, acc =>
    apiLoop env rest (apiTarget env p st).2 (acc ++ (apiTarget env p st).1)

/-- `ArticleLinkScraper.scrape_links_api` (scraper.py lines 104-134): loop
over the targets accumulating links, then `if link_list:` return it, else
raise `Exception('No links could be parsed. link_list is empty.')`. -/
def scrape_links_api (env : String → Except Unit (List Exchange))
    (urls : List String) : Except PyError (List String) :=
  let links := apiLoop env urls [] []
  if links.isEmpty then .error .noLinksFound else .ok links

/-- The links contributed by each target of `scrape_links_api`, in target
iteration order, threading the captured-requests state exactly as `apiLoop`
does.  Entry `i` lists, in extraction order, the links extended while
processing target `i` (a target that fails mid-way contributes the prefix
extracted before its exception; a target whose navigation fails contributes
`[]`). -/
def apiTargets (env : String → Except Unit (List Exchange)) :
    List String → List Exchange → List (List String)
  | [], _ => []
  | p :: rest, st =>
    (apiTarget env p st).1 :: apiTargets env rest (apiTarget env p st).2

/-- The comprehension
`[link_list.append(x.get_attribute('href')) for x in ...]` at line 150 of
`scrape_links_frontend`: hrefs are appended one by one in element order;
an exception at one element (modelled `.error`) aborts the target, keeping
the hrefs already appended. -/
def collectHrefs : List (Except Unit String) → List String
  | [] => []
  | .ok h :: rest => h :: collectHrefs rest
  | .error _ :: _ => []

/-- The try-block for one target of `scrape_links_frontend` (lines 145-153).
`env page` is the outcome of navigating to the target and looking up
`find_elements` on the article-url selector: an exception (navigation
failure, or a `None` selector making the iteration raise), or the
per-element href lookups in document order.  A target whose processing
raises contributes the hrefs appended before the exception. -/
def frontTarget (env : String → Except Unit (List (Except Unit String)))
    (p : String) : List String :=
  match env p with
  | .error _ => []
  | .ok hs => collectHrefs hs

/-- The `for page in self.urls` loop of `scrape_links_frontend`
(lines 144-153), accumulating `link_list`. -/
def frontLoop (env : String → Except Unit (List (Except Unit String))) :
    List String → List String → List String
  | [], acc => acc
  | p :: rest, acc => frontLoop env rest (acc ++ frontTarget env p)

/-- `ArticleLinkScraper.scrape_links_frontend` (scraper.py lines 137-163):
loop over the targets accumulating hrefs, then `if link_list:` return it,
else raise the no-links `Exception`. -/
def scrape_links_frontend (env : String → Except Unit (List (Except Unit String)))
    (urls : List String) : Except PyError (List String) :=
  let links := frontLoop env urls []
  if links.isEmpty then .error .noLinksFound else .ok links

/-- The links contributed by each target of `scrape_links_frontend`, in
target iteration order (no cross-target state in this mode). -/
def frontTargets (env : String → Except Unit (List (Except Unit String)))
    (urls : List String) : List (List String) :=
  urls.map (frontTarget env)

/-- The `selenium_settings` dict of `ArticleLinkScraper` (proxy omitted:
it never affects control flow or data in the model). -/
structure SeleniumSettings where
  mode : String
  headed : Bool
deriving DecidableEq, Repr

/-- Constructor state of `ArticleLinkScraper` (scraper.py lines 21-35).
The `article_url_selector` is folded into the per-mode environments. -/
structure ArticleLinkScraper where
  scraping_mode : String
  selenium_settings : SeleniumSettings
  urls : List String

/-- The external world a link-collection run interacts with: the RSS fetch
outcome for `urls[0]`, and the per-target environments for api and
frontend modes. -/
structure LinkEnv where
  rss : Except Unit XmlDoc
  api : String → Except Unit (List Exchange)
  front : String → Except Unit (List (Except Unit String))

/-- Outcome of `ArticleLinkScraper.run`: the returned links or the raised
exception, which driver was created (`none` when the run raised before
creating one), and whether a mode-specific scraping method was invoked
(hence whether any target could have been visited). -/
structure LinkRunOutcome where
  result : Except PyError (List String)
  driverKind : Option String
  attempted : Bool
deriving Repr

/-- `ArticleLinkScraper.run` (scraper.py lines 166-192): dispatch on
`scraping_mode`; in API mode, `selenium_settings['mode'] == 'uc'` raises
`ValueError` before any `Driver(...)` is constructed (lines 179-182),
otherwise a wire driver is created and `scrape_links_api` runs. -/
def ArticleLinkScraper.run (cfg : ArticleLinkScraper) (env : LinkEnv) : LinkRunOutcome :=
  if cfg.scraping_mode = "RSS" then
    if cfg.selenium_settings.mode = "uc" then
      ⟨scrape_links_rss env.rss, some "uc", true⟩
    else
      ⟨scrape_links_rss env.rss, some "wire", true⟩
  else if cfg.scraping_mode = "API" then
    if cfg.selenium_settings.mode = "uc" then
      ⟨.error (.valueError "API requests cannot be parsed in Seleniumbase UC-mode. Use wire mode instead."),
        none, false⟩
    else
      ⟨scrape_links_api env.api cfg.urls, some "wire", true⟩
  else if cfg.scraping_mode = "FRONTEND" then
    if cfg.selenium_settings.mode = "uc" then
      ⟨scrape_links_frontend env.front cfg.urls, some "uc", true⟩
    else
      ⟨scrape_links_frontend env.front cfg.urls, some "wire", true⟩
  else
    ⟨.error (.valueError "You need to specify a scraping method"), none, false⟩

/-- A Python value produced by an element lookup or a selector transform:
`vnone` is Python `None`, `elem` an opaque WebElement, `elems` a list of
WebElements (the `find_elements` result), `vstr` a string, `vbool` a
boolean. -/
inductive Val where
  | vnone
  | elem (e : Nat)
  | elems (es : List Nat)
  | vstr (s : String)
  | vbool (b : Bool)
deriving DecidableEq, Repr

/-- The third entry of a selector tuple: a caller-supplied lambda applied to
the raw lookup result; it may itself raise. -/
def Transform : Type := Val → Except String Val

/-- The rendered page the driver exposes after navigating to a link:
`findElement` models `driver.find_element(By.XPATH, sel)` (raises
`NoSuchElementException` when nothing matches), `findElements` models
`driver.find_elements(By.XPATH, sel)` (returns a possibly empty list,
never raises), `current_url` models `driver.current_url`. -/
structure PageDriver where
  findElement : String → Except String Nat
  findElements : String → List Nat
  current_url : String

/-- `ArticleContentScraper.get_element_by_xpath` (scraper.py lines 298-312):
a `None` selector returns `None` without touching the driver; otherwise the
lookup shape is chosen by `multiple` and the optional `func` is applied to
the raw result (a failure of `find_element` or of `func` propagates to the
caller). -/
def get_element_by_xpath (d : PageDriver) (xp : Option String) (multiple : Bool)
    (func : Option Transform) : Except String Val :=
  match xp with
  | none => .ok .vnone
  | some sel =>
    if multiple then
      match func with
      | some f => f (.elems (d.findElements sel))
      | none => .ok (.elems (d.findElements sel))
    else
      match d.findElement sel with
      | .error e => .error e
      | .ok el =>
        match func with
        | some f => f (.elem el)
        | none => .ok (.elem el)

/-- A selector tuple `(xpath, multiple, transform)` as documented in the
`ArticleContentScraper` docstring (scraper.py lines 198-201). -/
structure SelectorSpec where
  locator : Option String
  multiple : Bool
  transform : Option Transform

/-- Turns the outcome of a guarded lookup into the field value: the
source wraps each call in `try: ... except: field = None`, so an exception
becomes `None` (logged, not raised). -/
def exceptToOption (x : Except String Val) : Option Val :=
  match x with
  | .ok v => some v
  | .error _ => none

/-- One per-field line of `scrape_article_frontend`: the whole expression
`self.get_element_by_xpath(driver, sel[0], [multiple=sel[1],] func=sel[2])`
inside its `try`.  When the selector attribute is `None`, the subscript
`sel[0]` raises `TypeError`, which the same `except` turns into `None`.
`passFlag` records whether the call site passes `multiple=sel[1]`
(paywall, category, kicker, teaser, body, subheadlines do) or omits it so
that `multiple` keeps its default `False` (datetime_published, author,
image_url, headline — scraper.py lines 342, 352, 362, 372). -/
def attemptField (d : PageDriver) (spec : Option SelectorSpec) (passFlag : Bool) : Option Val :=
  match spec with
  | none => none
  | some s => exceptToOption (get_element_by_xpath d s.locator (passFlag && s.multiple) s.transform)

/-- The record assembled at lines 391-404 of `scrape_article_frontend`
(the keys of `article_data` in source order). -/
structure ArticleData where
  medium : Option String
  datetime_saved : Nat
  datetime_published : Option Val
  paywall : Option Val
  url : String
  author : Option Val
  category : Option Val
  image_url : Option Val
  kicker : Option Val
  headline : Option Val
  teaser : Option Val
  body : Option Val
  subheadlines : Option Val
  archive_url : String
deriving DecidableEq, Repr

/-- Constructor state of `ArticleContentScraper` (scraper.py lines 220-261).
`medium` and the selector tuples are as in source; `db` and the UTC offset
are omitted (never used in the scraping paths); `pre_hooks` are not
modelled (in source they only act on the live browser page, which the pure
`PageDriver` cannot mutate, and their failures are swallowed); `post_hooks`
may rewrite the assembled record and a failing hook is skipped. -/
structure ArticleContentScraper where
  scraping_mode : String
  selenium_mode : String
  selenium_headed : Bool
  link_list : List String
  medium : Option String
  post_hooks : List (PageDriver → ArticleData → Except String ArticleData)
  datetime_published_selector : Option SelectorSpec
  image_url_selector : Option SelectorSpec
  category_selector : Option SelectorSpec
  kicker_selector : Option SelectorSpec
  headline_selector : Option SelectorSpec
  teaser_selector : Option SelectorSpec
  body_selector : Option SelectorSpec
  subheadlines_selector : Option SelectorSpec
  paywall_selector : Option SelectorSpec
  author_selector : Option SelectorSpec

/-- The `for hook in self.post_hooks` loop (scraper.py lines 405-411): hooks
run in order against the assembled record; a hook that raises is logged and
skipped, leaving the record as it was. -/
def runPostHooks (d : PageDriver) :
    List (PageDriver → ArticleData → Except String ArticleData) → ArticleData → ArticleData
  | [], a => a
  | h :: rest, a =>
    match h d a with
    | .ok a2 => runPostHooks d rest a2
    | .error _ => runPostHooks d rest a

/-- `ArticleContentScraper.scrape_article_frontend` (scraper.py lines
329-412): each field is attempted independently under its own
`try`/`except` (a failure yields `None` for that field only), the record is
assembled with `medium`, `datetime.datetime.utcnow()` (the `now` argument),
`driver.current_url` and the originally requested `link`, and the
post-hooks run on it.  The function is total: no exception reaches the
caller. -/
def scrape_article_frontend (cfg : ArticleContentScraper) (d : PageDriver)
    (link : String) (now : Nat) : ArticleData :=
  let datetime_published := attemptField d cfg.datetime_published_selector false
  let paywall := attemptField d cfg.paywall_selector true
  let author := attemptField d cfg.author_selector false
  let category := attemptField d cfg.category_selector true
  let image_url := attemptField d cfg.image_url_selector false
  let kicker := attemptField d cfg.kicker_selector true
  let headline := attemptField d cfg.headline_selector false
  let teaser := attemptField d cfg.teaser_selector true
  let body := attemptField d cfg.body_selector true
  let subheadlines := attemptField d cfg.subheadlines_selector true
  let record : ArticleData :=
    { medium := cfg.medium
      datetime_saved := now
      datetime_published := datetime_published
      paywall := paywall
      url := d.current_url
      author := author
      category := category
      image_url := image_url
      kicker := kicker
      headline := headline
      teaser := teaser
      body := body
      subheadlines := subheadlines
      archive_url := link }
  runPostHooks d cfg.post_hooks record

/-- The ten selector-driven content fields of `scrape_article_frontend`. -/
inductive CField where
  | datetime_published | paywall | author | category | image_url
  | kicker | headline | teaser | body | subheadlines
deriving DecidableEq, Repr

/-- Projects the field of an `ArticleData` named by a `CField`. -/
def getField (a : ArticleData) : CField → Option Val
  | .datetime_published => a.datetime_published
  | .paywall => a.paywall
  | .author => a.author
  | .category => a.category
  | .image_url => a.image_url
  | .kicker => a.kicker
  | .headline => a.headline
  | .teaser => a.teaser
  | .body => a.body
  | .subheadlines => a.subheadlines

/-- The selector attribute of the configuration that feeds a given field. -/
def selOf (cfg : ArticleContentScraper) : CField → Option SelectorSpec
  | .datetime_published => cfg.datetime_published_selector
  | .paywall => cfg.paywall_selector
  | .author => cfg.author_selector
  | .category => cfg.category_selector
  | .image_url => cfg.image_url_selector
  | .kicker => cfg.kicker_selector
  | .headline => cfg.headline_selector
  | .teaser => cfg.teaser_selector
  | .body => cfg.body_selector
  | .subheadlines => cfg.subheadlines_selector

/-- Whether the call site for a field passes `multiple=sel[1]` to
`get_element_by_xpath`.  Read off the source lines 341-390: the calls for
`datetime_published`, `author`, `image_url` and `headline` omit the
keyword, so those lookups always use the default `multiple=False`. -/
def flagPassed : CField → Bool
  | .datetime_published => false
  | .paywall => true
  | .author => false
  | .category => true
  | .image_url => false
  | .kicker => true
  | .headline => false
  | .teaser => true
  | .body => true
  | .subheadlines => true

/-- The guarded lookup a given field performs, exactly as its call site in
`scrape_article_frontend` performs it. -/
def attemptOf (d : PageDriver) (cfg : ArticleContentScraper) (f : CField) : Option Val :=
  attemptField d (selOf cfg f) (flagPassed f)

/-- Outcome of `ArticleContentScraper.run`: the returned value or the
raised exception (`ok none` models Python falling off the function and
returning `None`), whether `create_selenium_driver` ran, and whether
`driver.quit()` (line 432) ran before the function terminated. -/
structure ContentRunOutcome where
  result : Except PyError (Option (List ArticleData))
  driverCreated : Bool
  driverClosed : Bool
deriving Repr

/-- The `for link in self.link_list` loop of `ArticleContentScraper.run`
(scraper.py lines 427-431): `driver.get(link)` raising aborts the loop and
the exception propagates (the records accumulated so far are lost);
otherwise `scrape_article_frontend` runs and the record is appended.
`env link` is the page the driver shows after navigating to `link`, or the
navigation exception. -/
def contentLoop (cfg : ArticleContentScraper) (env : String → Except Unit PageDriver)
    (now : Nat) : List String → List ArticleData → Except Unit (List ArticleData)
  | [], acc => .ok acc
  | l :: rest, acc =>
    match env l with
    | .error _ => .error ()
    | .ok d => contentLoop cfg env now rest (acc ++ [scrape_article_frontend cfg d l now])

/-- `ArticleContentScraper.run` (scraper.py lines 415-437): an empty (or
`None`) `link_list` raises `ValueError` at line 437; otherwise modes
'RSS' and 'API' hit `pass` bodies and fall through, returning `None`;
mode 'FRONTEND' creates a driver (`create_selenium_driver` raises
`ValueError` for an invalid `selenium_mode` before any driver exists),
loops over the links, and only reaches `driver.quit()` when every
navigation succeeded; an unknown mode raises `ValueError`. -/
def ArticleContentScraper.run (cfg : ArticleContentScraper)
    (env : String → Except Unit PageDriver) (now : Nat) : ContentRunOutcome :=
  if cfg.link_list.isEmpty then
    ⟨.error (.valueError "link_list is empty."), false, false⟩
  else if cfg.scraping_mode = "RSS" then ⟨.ok none, false, false⟩
  else if cfg.scraping_mode = "API" then ⟨.ok none, false, false⟩
  else if cfg.scraping_mode = "FRONTEND" then
    if cfg.selenium_mode = "wire" ∨ cfg.selenium_mode = "uc" then
      match contentLoop cfg env now cfg.link_list [] with
      | .error _ => ⟨.error .navError, true, false⟩
      | .ok arts => ⟨.ok (some arts), true, true⟩
    else ⟨.error (.valueError "Invalid parameter for selenium_mode"), false, false⟩
  else ⟨.error (.valueError "You need to specify a scraping method."), false, false⟩

/-! Concrete configurations, drivers and environments used to evaluate the
scraping functions on explicit inputs. -/

/-- A content-scraper configuration with no selectors, no hooks, frontend
mode and a valid selenium mode; concrete configurations below override
individual fields. -/
def emptyContentCfg : ArticleContentScraper :=
  { scraping_mode := "FRONTEND"
    selenium_mode := "uc"
    selenium_headed := false
    link_list := []
    medium := none
    post_hooks := []
    datetime_published_selector := none
    image_url_selector := none
    category_selector := none
    kicker_selector := none
    headline_selector := none
    teaser_selector := none
    body_selector := none
    subheadlines_selector := none
    paywall_selector := none
    author_selector := none }

/-- Replaces the selector of the named field. -/
def setField (cfg : ArticleContentScraper) (f : CField) (s : SelectorSpec) :
    ArticleContentScraper :=
  match f with
  | .datetime_published => { cfg with datetime_published_selector := some s }
  | .paywall => { cfg with paywall_selector := some s }
  | .author => { cfg with author_selector := some s }
  | .category => { cfg with category_selector := some s }
  | .image_url => { cfg with image_url_selector := some s }
  | .kicker => { cfg with kicker_selector := some s }
  | .headline => { cfg with headline_selector := some s }
  | .teaser => { cfg with teaser_selector := some s }
  | .body => { cfg with body_selector := some s }
  | .subheadlines => { cfg with subheadlines_selector := some s }

/-- Transform that picks the first element of a multi-element match,
raising `IndexError` on an empty match (a common way a multi-element
selector fails when its locator matches nothing). -/
def firstElemT : Transform := fun v =>
  match v with
  | .elems (x :: _) => .ok (.elem x)
  | _ => .error "IndexError: list index out of range"

/-- Identity transform. -/
def idT : Transform := fun v => .ok v

/-- Driver page where every single-element lookup resolves to element `1`,
every multi-element lookup resolves to `[2]`, except the locator
`bodyloc` which matches no element. -/
def pdC1 : PageDriver :=
  { findElement := fun s => if s = "bodyloc" then .error "NoSuchElementException" else .ok 1
    findElements := fun s => if s = "bodyloc" then [] else [2]
    current_url := "https://resolved/1" }

/-- Configuration with all ten selectors set; the body selector is the one
guaranteed to fail against `pdC1` (its locator matches no element and its
transform then raises `IndexError`). -/
def cfgC1 : ArticleContentScraper :=
  { emptyContentCfg with
    link_list := ["https://a/1"]
    medium := some "testmedium"
    datetime_published_selector := some ⟨some "s", false, none⟩
    author_selector := some ⟨some "s", false, none⟩
    image_url_selector := some ⟨some "s", false, none⟩
    headline_selector := some ⟨some "s", false, none⟩
    paywall_selector := some ⟨some "m", true, none⟩
    category_selector := some ⟨some "m", true, none⟩
    kicker_selector := some ⟨some "m", true, none⟩
    teaser_selector := some ⟨some "m", true, none⟩
    subheadlines_selector := some ⟨some "m", true, none⟩
    body_selector := some ⟨some "bodyloc", true, some firstElemT⟩ }

/-- The field values every selector of `cfgC1` other than the body yields
against `pdC1`. -/
def valC1 : CField → Val
  | .datetime_published => .elem 1
  | .author => .elem 1
  | .image_url => .elem 1
  | .headline => .elem 1
  | .body => .vnone
  | _ => .elems [2]

/-- A datetime-published selector whose multiplicity flag is `true`. -/
def specC5 : SelectorSpec := ⟨some "dp", true, none⟩

/-- Driver page where the single-element lookup on any locator gives
element `7` and the multi-element lookup gives `[1, 2]`. -/
def pdC5 : PageDriver :=
  { findElement := fun _ => .ok 7
    findElements := fun _ => [1, 2]
    current_url := "u" }

/-- Content configuration whose only selector is `specC5` on
`datetime_published`. -/
def cfgC5 : ArticleContentScraper := setField emptyContentCfg .datetime_published specC5

/-- The lookup the spec describes for a SelectorSpec: the multiplicity flag
always chooses the lookup shape (this is the spec-side comparator for the
refinement check; the source-side behaviour is `attemptOf`). -/
def flagRespectingAttempt (d : PageDriver) (s : SelectorSpec) : Option Val :=
  exceptToOption (get_element_by_xpath d s.locator s.multiple s.transform)

/-- Driver page used by the witness of the amended multiplicity claim. -/
def pdC5w : PageDriver :=
  { findElement := fun _ => .ok 3
    findElements := fun _ => [9]
    current_url := "u" }

/-- A page whose lookups all fail (used for links whose navigation
succeeds but whose page holds nothing). -/
def pdEmpty : PageDriver :=
  { findElement := fun _ => .error "NoSuchElementException"
    findElements := fun _ => []
    current_url := "https://resolved/a" }

/-- Navigation environment in which only the link `a` loads; navigating to
any other link raises. -/
def envC8 : String → Except Unit PageDriver :=
  fun l => if l = "a" then .ok pdEmpty else .error ()

/-- Frontend content run over links `a` (loads) and `b` (navigation
raises). -/
def cfgC8 : ArticleContentScraper := { emptyContentCfg with link_list := ["a", "b"] }

/-- Content configuration in RSS mode with a non-empty link list. -/
def cfgC9 : ArticleContentScraper := { emptyContentCfg with scraping_mode := "RSS", link_list := ["a"] }

/-- Api environment exhibiting cross-target leakage: loading `p1` captures
an exchange addressed to `p2` (yielding the link `stale`) and an exchange
addressed to `p1` whose body processing raises — so target `p1` fails after
contributing nothing and `driver.requests` is not cleared.  Loading `p2`
captures nothing. -/
def apiC6 : String → Except Unit (List Exchange) := fun p =>
  if p = "p1" then .ok [{ url := "p2", parsed := .ok ["stale"] }, { url := "p1", parsed := .error () }]
  else if p = "p2" then .ok []
  else .error ()

/-- Api environment where every load of `p` captures one exchange for `p`
yielding the link `l1`. -/
def apiC2 : String → Except Unit (List Exchange) :=
  fun p => .ok [{ url := p, parsed := .ok ["l1"] }]

/-- Frontend environment where every target page holds one anchor with
href `h1`. -/
def frontC2 : String → Except Unit (List (Except Unit String)) :=
  fun _ => .ok [.ok "h1"]

/-- Link-scraper configuration in API mode with selenium settings in
uc mode. -/
def cfgC10 : ArticleLinkScraper := ⟨"API", ⟨"uc", true⟩, ["p"]⟩

/-- A link environment in which every interaction fails (sufficient where
the run raises before touching the environment). -/
def envLinkTrivial : LinkEnv := ⟨.error (), fun _ => .error (), fun _ => .error ()⟩

/-! Helper lemmas about the accumulation loops. -/

/-- `apiLoop` accumulates on the left of whatever it produces from the
remaining targets. -/
theorem apiLoop_acc (env : String → Except Unit (List Exchange)) (urls : List String) :
    ∀ (st : List Exchange) (acc : List String),
      apiLoop env urls st acc = acc ++ apiLoop env urls st [] := by
  induction urls with
  | nil => intro st acc; simp [apiLoop]
  | cons p rest ih =>
    intro st acc
    simp only [apiLoop, List.nil_append]
    rw [ih ((apiTarget env p st).2) (acc ++ (apiTarget env p st).1),
      ih ((apiTarget env p st).2) ((apiTarget env p st).1), List.append_assoc]

/-- The accumulated `link_list` of `scrape_links_api` is the concatenation,
in target iteration order, of the per-target contributions. -/
theorem apiLoop_flatten (env : String → Except Unit (List Exchange)) (urls : List String) :
    ∀ st : List Exchange, apiLoop env urls st [] = (apiTargets env urls st).flatten := by
  induction urls with
  | nil => intro st; simp [apiLoop, apiTargets]
  | cons p rest ih =>
    intro st
    simp only [apiLoop, apiTargets, List.nil_append, List.flatten_cons]
    rw [apiLoop_acc, ih]

/-- `frontLoop` accumulates on the left of whatever it produces from the
remaining targets. -/
theorem frontLoop_acc (env : String → Except Unit (List (Except Unit String)))
    (urls : List String) :
    ∀ acc : List String, frontLoop env urls acc = acc ++ frontLoop env urls [] := by
  induction urls with
  | nil => intro acc; simp [frontLoop]
  | cons p rest ih =>
    intro acc
    simp only [frontLoop, List.nil_append]
    rw [ih (acc ++ frontTarget env p), ih (frontTarget env p), List.append_assoc]

/-- The accumulated `link_list` of `scrape_links_frontend` is the
concatenation, in target iteration order, of the per-target
contributions. -/
theorem frontLoop_flatten (env : String → Except Unit (List (Except Unit String)))
    (urls : List String) : frontLoop env urls [] = (frontTargets env urls).flatten := by
  induction urls with
  | nil => simp [frontLoop, frontTargets]
  | cons p rest ih =>
    simp only [frontLoop, frontTargets, List.map_cons, List.nil_append, List.flatten_cons]
    rw [frontLoop_acc, ih]
    rfl

/-! Claim theorems. -/

/-- C2: in api and frontend modes, for every list of targets, the
collection raises the no-links exception exactly when every target fails
to contribute any link (the accumulated list after all targets is empty);
otherwise it returns the concatenation of the per-target contributed
links, ordered by target iteration order and, within a target, by
extraction order. -/
theorem c2_collect_links_policy
    (apiEnv : String → Except Unit (List Exchange))
    (frontEnv : String → Except Unit (List (Except Unit String)))
    (urls : List String) :
    ((scrape_links_api apiEnv urls = .error .noLinksFound ↔
        (apiTargets apiEnv urls []).flatten = []) ∧
      ((apiTargets apiEnv urls []).flatten ≠ [] →
        scrape_links_api apiEnv urls = .ok ((apiTargets apiEnv urls []).flatten))) ∧
    ((scrape_links_frontend frontEnv urls = .error .noLinksFound ↔
        (frontTargets frontEnv urls).flatten = []) ∧
      ((frontTargets frontEnv urls).flatten ≠ [] →
        scrape_links_frontend frontEnv urls = .ok ((frontTargets frontEnv urls).flatten))) := by
  constructor
  · simp only [scrape_links_api, apiLoop_flatten]
    by_cases he : (apiTargets apiEnv urls []).flatten = []
    · simp [he]
    · simp [List.isEmpty_iff, he]
  · simp only [scrape_links_frontend, frontLoop_flatten]
    by_cases he : (frontTargets frontEnv urls).flatten = []
    · simp [he]
    · simp [List.isEmpty_iff, he]

/-- Witness for C2 at concrete inputs: a single api target contributing
`l1` makes the call return `[l1]`, and a single frontend target
contributing `h1` makes the call return `[h1]`. -/
theorem c2_collect_links_policy_witness :
    scrape_links_api apiC2 ["p"] = .ok ["l1"] ∧
      scrape_links_frontend frontC2 ["q"] = .ok ["h1"] := by
  constructor
  · exact (c2_collect_links_policy apiC2 frontC2 ["p"]).1.2 (by decide)
  · exact (c2_collect_links_policy apiC2 frontC2 ["q"]).2.2 (by decide)

/-- C3 counterexample: a well-formed feed with zero `item` nodes makes
`scrape_links_rss` return the empty list; it does not raise the no-links
exception (there is no emptiness check on the RSS path). -/
theorem c3_zero_items_counterexample :
    scrape_links_rss (.ok (.wellFormed [])) = .ok [] ∧
      scrape_links_rss (.ok (.wellFormed [])) ≠ .error .noLinksFound :=
  ⟨rfl, fun h => Except.noConfusion h⟩

/-- C3 amended: in feed mode, a well-formed feed with zero item nodes makes
the collection return the empty list (no exception is raised), both at the
`scrape_links_rss` level and through `ArticleLinkScraper.run`. -/
theorem c3_zero_items_amended (settings : SeleniumSettings) (urls : List String)
    (apiEnv : String → Except Unit (List Exchange))
    (frontEnv : String → Except Unit (List (Except Unit String))) :
    scrape_links_rss (.ok (.wellFormed [])) = .ok [] ∧
      (ArticleLinkScraper.run ⟨"RSS", settings, urls⟩
        ⟨.ok (.wellFormed []), apiEnv, frontEnv⟩).result = .ok [] := by
  refine ⟨rfl, ?_⟩
  by_cases h : settings.mode = "uc" <;>
    simp [ArticleLinkScraper.run, h, scrape_links_rss, parseRss, List.mapM, List.mapM.loop,
      pure, Except.pure]

/-- C4: in feed mode, a response body that is not a well-formed feed
document fails the whole call: the `ParseError` raised by `ET.fromstring`
is logged and re-raised, and `ArticleLinkScraper.run` propagates it to the
caller in both uc and wire selenium modes. -/
theorem c4_malformed_feed_parse_error (settings : SeleniumSettings) (urls : List String)
    (apiEnv : String → Except Unit (List Exchange))
    (frontEnv : String → Except Unit (List (Except Unit String))) :
    scrape_links_rss (.ok .malformed) = .error .parseError ∧
      (ArticleLinkScraper.run ⟨"RSS", settings, urls⟩
        ⟨.ok .malformed, apiEnv, frontEnv⟩).result = .error .parseError := by
  refine ⟨rfl, ?_⟩
  by_cases h : settings.mode = "uc" <;>
    simp [ArticleLinkScraper.run, h, scrape_links_rss, parseRss]

/-- C6: evaluation at a failing input.  Target `p1` fails (its matching
exchange's body processing raises) after its load captured an exchange
addressed to `p2`; because `driver.requests.clear()` sits inside the `try`
and the `continue` on failure skips it, that exchange survives into the
processing of target `p2`, which extracts the link `stale` from it: the
per-target contributions are `[[], [stale]]` and the call returns
`[stale]`, inspecting an exchange captured while processing the earlier
target. -/
theorem c6_requests_not_cleared :
    scrape_links_api apiC6 ["p1", "p2"] = .ok ["stale"] ∧
      apiTargets apiC6 ["p1", "p2"] [] = [[], ["stale"]] :=
  ⟨rfl, by decide⟩

/-- C10: with scraping mode API, selenium mode uc makes
`ArticleLinkScraper.run` raise `ValueError` with no driver created and no
collection attempted (so no target is visited); with any other selenium
mode the driver that is created is a wire driver and api collection is
attempted. -/
theorem c10_api_uc_value_error (cfg : ArticleLinkScraper) (env : LinkEnv)
    (hm : cfg.scraping_mode = "API") :
    (cfg.selenium_settings.mode = "uc" →
      ArticleLinkScraper.run cfg env =
        ⟨.error (.valueError "API requests cannot be parsed in Seleniumbase UC-mode. Use wire mode instead."),
          none, false⟩) ∧
    (cfg.selenium_settings.mode ≠ "uc" →
      (ArticleLinkScraper.run cfg env).driverKind = some "wire" ∧
        (ArticleLinkScraper.run cfg env).attempted = true) := by
  constructor
  · intro hu
    simp [ArticleLinkScraper.run, hm, hu]
  · intro hu
    simp [ArticleLinkScraper.run, hm, hu]

/-- Witness for C10: the concrete API-mode, uc-settings configuration. -/
theorem c10_api_uc_value_error_witness :
    ArticleLinkScraper.run cfgC10 envLinkTrivial =
      ⟨.error (.valueError "API requests cannot be parsed in Seleniumbase UC-mode. Use wire mode instead."),
        none, false⟩ :=
  (c10_api_uc_value_error cfgC10 envLinkTrivial rfl).1 rfl

/-- The single-element lookup with a transform, as `get_element_by_xpath`
performs it when `multiple` is false: a `find_element` failure propagates,
otherwise the transform receives the single element. -/
def singleLookup (d : PageDriver) (loc : String) (tf : Transform) : Except String Val :=
  match d.findElement loc with
  | .error e => .error e
  | .ok el => tf (.elem el)

/-- With no post-hooks configured, every content field of the record
returned by `scrape_article_frontend` is exactly the outcome of its own
guarded selector lookup. -/
theorem scrape_fields (cfg : ArticleContentScraper) (d : PageDriver) (link : String)
    (now : Nat) (hp : cfg.post_hooks = []) (f : CField) :
    getField (scrape_article_frontend cfg d link now) f = attemptOf d cfg f := by
  cases f <;>
    simp [scrape_article_frontend, hp, runPostHooks, getField, attemptOf, selOf, flagPassed]

/-- C1: per-field fault isolation of `scrape_article_frontend`.  If the
guarded selector lookup of exactly one content field fails (yields `None`)
and the lookup of every other field succeeds, the returned record carries
`None` for the failing field and the successful value for every other
field.  No exception reaches the caller: `scrape_article_frontend` is
total by construction, each field lookup being wrapped in its own
`try`/`except` (the failure is logged in source; logging is not
modelled). -/
theorem c1_field_isolation (cfg : ArticleContentScraper) (d : PageDriver) (link : String)
    (now : Nat) (f0 : CField) (v : CField → Val)
    (hp : cfg.post_hooks = [])
    (hfail : attemptOf d cfg f0 = none)
    (hok : ∀ f, f ≠ f0 → attemptOf d cfg f = some (v f)) :
    getField (scrape_article_frontend cfg d link now) f0 = none ∧
      ∀ f, f ≠ f0 → getField (scrape_article_frontend cfg d link now) f = some (v f) := by
  refine ⟨?_, ?_⟩
  · rw [scrape_fields cfg d link now hp, hfail]
  · intro f hf
    rw [scrape_fields cfg d link now hp, hok f hf]

/-- Witness for C1: against `pdC1`, the body selector of `cfgC1` fails
(empty match, transform raises `IndexError`) while all nine other
selectors succeed; the record has `body = None` and every other field
populated. -/
theorem c1_field_isolation_witness :
    getField (scrape_article_frontend cfgC1 pdC1 "https://a/1" 0) .body = none ∧
      ∀ f, f ≠ CField.body →
        getField (scrape_article_frontend cfgC1 pdC1 "https://a/1" 0) f = some (valC1 f) :=
  c1_field_isolation cfgC1 pdC1 "https://a/1" 0 .body valC1 rfl rfl
    (by intro f hf; cases f <;> first | exact absurd rfl hf | rfl)

/-- C5 counterexample: the `datetime_published` selector `specC5` has
multiplicity flag `true`, yet its call site in `scrape_article_frontend`
omits `multiple=...`, so against `pdC5` the lookup is single-element and
yields element `7`; the flag-respecting lookup the claim describes would
have yielded the element list `[1, 2]`. -/
theorem c5_multiplicity_counterexample :
    (scrape_article_frontend cfgC5 pdC5 "l" 0).datetime_published = some (.elem 7) ∧
      flagRespectingAttempt pdC5 specC5 = some (.elems [1, 2]) ∧
      (some (Val.elem 7) : Option Val) ≠ some (Val.elems [1, 2]) :=
  ⟨rfl, rfl, by decide⟩

/-- C5 amended: the multiplicity flag determines the lookup shape only for
the six fields whose call sites pass `multiple=sel[1]` (paywall, category,
kicker, teaser, body, subheadlines); for datetime_published, author,
image_url and headline the flag is ignored and the lookup is always
single-element, the transform receiving a single element even when the
flag is true.  When the flag is false the transform always receives a
single element (this half of the claim holds for every field). -/
theorem c5_multiplicity_amended (d : PageDriver) (loc : String) (tf : Transform) (f : CField) :
    (attemptOf d (setField emptyContentCfg f ⟨some loc, false, some tf⟩) f =
      exceptToOption (singleLookup d loc tf)) ∧
    ((f = .paywall ∨ f = .category ∨ f = .kicker ∨ f = .teaser ∨ f = .body ∨
        f = .subheadlines) →
      attemptOf d (setField emptyContentCfg f ⟨some loc, true, some tf⟩) f =
        exceptToOption (tf (.elems (d.findElements loc)))) ∧
    ((f = .datetime_published ∨ f = .author ∨ f = .image_url ∨ f = .headline) →
      attemptOf d (setField emptyContentCfg f ⟨some loc, true, some tf⟩) f =
        exceptToOption (singleLookup d loc tf)) := by
  refine ⟨?_, ?_, ?_⟩
  · cases f <;> (cases h : d.findElement loc <;>
      simp [attemptOf, attemptField, selOf, flagPassed, setField, emptyContentCfg,
        get_element_by_xpath, singleLookup, h, exceptToOption])
  · intro hf
    rcases hf with h6 | h6 | h6 | h6 | h6 | h6 <;> subst h6 <;>
      simp [attemptOf, attemptField, selOf, flagPassed, setField, emptyContentCfg,
        get_element_by_xpath, exceptToOption]
  · intro hf
    rcases hf with h4 | h4 | h4 | h4 <;> subst h4 <;> (cases h : d.findElement loc <;>
      simp [attemptOf, attemptField, selOf, flagPassed, setField, emptyContentCfg,
        get_element_by_xpath, singleLookup, h, exceptToOption])

/-- Witness for the amended C5: a headline selector with multiplicity flag
`true` still performs a single-element lookup, yielding element `3` from
`pdC5w` rather than the list `[9]`. -/
theorem c5_multiplicity_amended_witness :
    attemptOf pdC5w (setField emptyContentCfg .headline ⟨some "h", true, some idT⟩) .headline =
      some (.elem 3) := by
  have h := (c5_multiplicity_amended pdC5w "h" idT .headline).2.2
    (Or.inr (Or.inr (Or.inr rfl)))
  exact h.trans rfl

/-- C7: evaluation at a failing input.  A frontend content run over links
`a` and `b` where navigating to `b` raises terminates by exception with
the driver created but `driver.quit()` never executed: the run ends with
the browser session still open, violating release-on-every-exit-path. -/
theorem c7_session_leak :
    ArticleContentScraper.run cfgC8 envC8 0 =
      { result := .error .navError, driverCreated := true, driverClosed := false } :=
  rfl

/-- C8: in the content extractor's frontend mode with a non-empty link
list, if navigating to one link raises after every earlier link loaded,
the exception propagates out of `run` (result is the navigation error, so
the records already extracted are never returned) and `driver.quit()` does
not run: there is no per-link skip/continue isolation. -/
theorem c8_nav_failure_aborts (cfg : ArticleContentScraper)
    (env : String → Except Unit PageDriver) (now : Nat)
    (pre post : List String) (bad : String)
    (hmode : cfg.scraping_mode = "FRONTEND")
    (hsel : cfg.selenium_mode = "wire" ∨ cfg.selenium_mode = "uc")
    (hlinks : cfg.link_list = pre ++ bad :: post)
    (hpre : ∀ l ∈ pre, ∃ d, env l = .ok d)
    (hbad : env bad = .error ()) :
    ArticleContentScraper.run cfg env now =
      { result := .error .navError, driverCreated := true, driverClosed := false } := by
  have hloop : ∀ (pr : List String), (∀ l ∈ pr, ∃ d, env l = .ok d) →
      ∀ acc, contentLoop cfg env now (pr ++ bad :: post) acc = .error () := by
    intro pr
    induction pr with
    | nil =>
      intro _ acc
      simp [contentLoop, hbad]
    | cons a t ih =>
      intro hp acc
      obtain ⟨d, hd⟩ := hp a (List.mem_cons_self a t)
      simp only [List.cons_append, contentLoop, hd]
      exact ih (fun l hl => hp l (List.mem_cons_of_mem a hl)) _
  have hempty : cfg.link_list.isEmpty = false := by
    rw [hlinks]; cases pre <;> rfl
  simp [ArticleContentScraper.run, hempty, hmode, if_pos hsel, hlinks, hloop pre hpre []]

/-- Witness for C8 at a concrete input: links `a` (loads) then `b`
(navigation raises). -/
theorem c8_nav_failure_aborts_witness :
    ArticleContentScraper.run { emptyContentCfg with link_list := ["a", "b"] } envC8 1 =
      { result := .error .navError, driverCreated := true, driverClosed := false } :=
  c8_nav_failure_aborts { emptyContentCfg with link_list := ["a", "b"] } envC8 1
    ["a"] [] "b" rfl (Or.inr rfl) rfl
    (by intro l hl; simp at hl; subst hl; exact ⟨pdEmpty, rfl⟩) rfl

/-- C9: with a non-empty link list, calling the content extractor's `run`
with scraping mode RSS or API returns `None` (the mode branches are `pass`
bodies and the function falls through) — no records, no exception, and no
driver created. -/
theorem c9_rss_api_returns_none (cfg : ArticleContentScraper)
    (env : String → Except Unit PageDriver) (now : Nat)
    (hne : cfg.link_list ≠ [])
    (hmode : cfg.scraping_mode = "RSS" ∨ cfg.scraping_mode = "API") :
    ArticleContentScraper.run cfg env now =
      { result := .ok none, driverCreated := false, driverClosed := false } := by
  have hempty : cfg.link_list.isEmpty = false := by
    cases h : cfg.link_list with
    | nil => exact absurd h hne
    | cons a t => rfl
  rcases hmode with h | h <;> simp [ArticleContentScraper.run, hempty, h]

/-- Witness for C9: RSS mode with link list `[a]` returns `None`. -/
theorem c9_rss_api_returns_none_witness :
    ArticleContentScraper.run cfgC9 envC8 0 =
      { result := .ok none, driverCreated := false, driverClosed := false } :=
  c9_rss_api_returns_none cfgC9 envC8 0 (by decide) (Or.inl rfl)
